import Mathlib

set_option linter.unusedSectionVars false

/-!
Verification of the orchestration layer of the xmlschema package
(src/xmlschema/schema.py) against its natural-language specification.

The file shallow-embeds the `XsdGlobals` registry and the parts of the
generated `XMLSchemaValidator` class that are visible in the source:
registration, the namespace-view cache, `clear`, the two-phase `build`
pipeline, the target-namespace determination of the constructor, the
build decision of the constructor, and the validation / decoding entry points
(`validate`, `is_valid`, `iter_errors`, `iter_decode`, `to_dict`,
`iter`, `iterchildren`).

Code that the repository excerpt only calls (the `load_*` / `build_*`
passes of xsdbase.py, the component classes, the XPath engine, the
resource loader) enters the model as explicit parameters or as
definitions modelled from the specification; each such definition says
so in its doc comment.
-/

namespace XmlSchemaModel

/-- Association list with Python-dict semantics: keys are unique in any
list produced by `insert` / `update`; `insert` replaces the value of an
existing key in place (keeping its position) and otherwise appends. -/
abbrev AList (α β : Type) : Type := List (α × β)

namespace AList

variable {α β : Type} [DecidableEq α]

/-- Python dict lookup `d[k]` (as an option). -/
def find? : AList α β → α → Option β
  | [], _ => none
  | (k, v) :: t, k₀ => if k = k₀ then some v else find? t k₀

/-- Python dict membership `k in d`. -/
def hasKey (d : AList α β) (k : α) : Bool :=
  (d.find? k).isSome

/-- Python dict assignment `d[k] = v`: replace in place or append. -/
def insert : AList α β → α → β → AList α β
  | [], k, v => [(k, v)]
  | (k₁, v₁) :: t, k, v =>
    if k₁ = k then (k, v) :: t else (k₁, v₁) :: insert t k v

/-- Python `d.update(other)`: assign every pair of `other` in order. -/
def update (d other : AList α β) : AList α β :=
  other.foldl (fun acc kv => acc.insert kv.1 kv.2) d

/-- Python dict construction from a sequence of pairs (as in a dict
comprehension): later pairs with the same key overwrite earlier ones. -/
def ofPairs (l : List (α × β)) : AList α β :=
  update ([] : AList α β) l

theorem find?_insert_self (d : AList α β) (k : α) (v : β) :
    (d.insert k v).find? k = some v := by
  induction d with
  | nil => simp [insert, find?]
  | cons hd t ih =>
    obtain ⟨k₁, v₁⟩ := hd
    by_cases h : k₁ = k
    · simp [insert, h, find?]
    · simp [insert, h, find?, ih]

theorem find?_insert_ne (d : AList α β) (k k₀ : α) (v : β) (h : k ≠ k₀) :
    (d.insert k v).find? k₀ = d.find? k₀ := by
  induction d with
  | nil => simp [insert, find?, h]
  | cons hd t ih =>
    obtain ⟨k₁, v₁⟩ := hd
    by_cases h₁ : k₁ = k
    · subst h₁
      simp [insert, find?, h]
    · simp [insert, h₁, find?, ih]

theorem find?_insert_isSome (d : AList α β) (k k₀ : α) (v : β)
    (h : (d.find? k₀).isSome) : ((d.insert k v).find? k₀).isSome := by
  by_cases hk : k = k₀
  · subst hk
    simp [find?_insert_self]
  · rwa [find?_insert_ne d k k₀ v hk]

theorem find?_update_isSome (d other : AList α β) (k : α)
    (h : (d.find? k).isSome) : ((d.update other).find? k).isSome := by
  induction other generalizing d with
  | nil => simpa [update] using h
  | cons hd t ih =>
    obtain ⟨k₁, v₁⟩ := hd
    have h₁ : ((d.insert k₁ v₁).find? k).isSome := find?_insert_isSome d k₁ k v₁ h
    simpa [update] using ih (d.insert k₁ v₁) h₁

theorem find?_update_isSome_right (d other : AList α β) (k : α)
    (h : (other.find? k).isSome) : ((d.update other).find? k).isSome := by
  induction other generalizing d with
  | nil => simp [find?] at h
  | cons hd t ih =>
    obtain ⟨k₁, v₁⟩ := hd
    by_cases hk : k₁ = k
    · subst hk
      have h₁ : (find? (d.insert k₁ v₁) k₁).isSome := by
        simp [find?_insert_self]
      simpa [update] using find?_update_isSome (d.insert k₁ v₁) t k₁ h₁
    · have h₂ : (find? t k).isSome := by
        simpa [find?, hk] using h
      simpa [update] using ih (d.insert k₁ v₁) h₂

theorem find?_foldl_update_isSome {γ : Type} (l : List γ) (f : γ → AList α β)
    (acc : AList α β) (k : α) (h : (acc.find? k).isSome) :
    ((l.foldl (fun a x => a.update (f x)) acc).find? k).isSome := by
  induction l generalizing acc with
  | nil => simpa using h
  | cons x t ih =>
    simpa using ih (acc.update (f x)) (find?_update_isSome acc (f x) k h)

/-- Unique keys, the invariant of every list standing for a Python
dict. -/
def NodupKeys (d : AList α β) : Prop :=
  (d.map Prod.fst).Nodup

instance (d : AList α β) : Decidable (NodupKeys d) :=
  inferInstanceAs (Decidable (d.map Prod.fst).Nodup)

theorem insert_of_find?_eq_none (d : AList α β) (k : α) (v : β)
    (h : d.find? k = none) : d.insert k v = d ++ [(k, v)] := by
  induction d with
  | nil => simp [insert]
  | cons hd t ih =>
    obtain ⟨k₁, v₁⟩ := hd
    by_cases hk : k₁ = k
    · simp [find?, hk] at h
    · have h₁ : find? t k = none := by simpa [find?, hk] using h
      simp [insert, hk, ih h₁]

theorem find?_append (d₁ d₂ : AList α β) (k : α) :
    find? (d₁ ++ d₂) k =
      match find? d₁ k with
      | some v => some v
      | none => find? d₂ k := by
  induction d₁ with
  | nil => simp [find?]
  | cons hd t ih =>
    obtain ⟨k₁, v₁⟩ := hd
    by_cases hk : k₁ = k
    · simp [find?, hk]
    · simpa [find?, hk] using ih

theorem update_eq_append (d l : AList α β) (hnd : NodupKeys l)
    (hfresh : ∀ k ∈ l.map Prod.fst, d.find? k = none) :
    d.update l = d ++ l := by
  induction l generalizing d with
  | nil => simp [update]
  | cons hd t ih =>
    obtain ⟨k, v⟩ := hd
    have hd_fresh : d.find? k = none := hfresh k (by simp)
    have hins : d.insert k v = d ++ [(k, v)] := insert_of_find?_eq_none d k v hd_fresh
    have hnd' : k ∉ t.map Prod.fst ∧ NodupKeys t := by
      have h := hnd
      rw [NodupKeys, List.map_cons, List.nodup_cons] at h
      exact h
    have hfresh_t : ∀ k₀ ∈ t.map Prod.fst, find? (d ++ [(k, v)]) k₀ = none := by
      intro k₀ hk₀
      have h₁ : d.find? k₀ = none := hfresh k₀ (by simp [hk₀])
      have h₂ : k ≠ k₀ := fun h => hnd'.1 (h ▸ hk₀)
      rw [find?_append, h₁]
      simp [find?, h₂]
    calc d.update ((k, v) :: t) = update (d.insert k v) t := by simp [update]
      _ = (d ++ [(k, v)]) ++ t := by rw [hins, ih (d ++ [(k, v)]) hnd'.2 hfresh_t]
      _ = d ++ (k, v) :: t := by simp

theorem ofPairs_eq_self (l : AList α β) (hnd : NodupKeys l) : ofPairs l = l := by
  have h := update_eq_append ([] : AList α β) l hnd (by intro k _; simp [find?])
  simpa [ofPairs] using h

theorem NodupKeys.of_filter (M : AList α β) (p : α × β → Bool) (h : NodupKeys M) :
    NodupKeys (M.filter p) := by
  exact List.Nodup.sublist (List.Sublist.map Prod.fst (List.filter_sublist M)) h

end AList

/-- One registered schema document, as the registry observes it: object
identity, canonical URI (`none` when the source had none), target
namespace and the `built` flag. -/
structure Schema where
  id : Nat
  uri : Option String
  target_namespace : String
  built : Bool
deriving DecidableEq

/-- Python truthiness of `schema.uri` (`None` and the empty string are
falsy). -/
def Schema.uriTruthy (s : Schema) : Bool :=
  match s.uri with
  | none => false
  | some u => !u.isEmpty

/-- Modelled from the spec: `get_namespace` of the QName utilities
(utils.py, not under src/). A fully qualified name has the internal
string form brace-ns-brace-local; this returns its namespace-URI
component, the empty string for a name with no leading brace. -/
def get_namespace (name : String) : String :=
  match name.data with
  | '\x7b' :: rest => String.mk (rest.takeWhile (fun c => c ≠ '\x7d'))
  | _ => ""

/-- Modelled from the spec: `strip_uri` of the QName utilities
(utils.py, not under src/). It strips the braced namespace part of a
fully qualified name, leaving the local name. -/
def strip_uri (name : String) : String :=
  match name.data with
  | '\x7b' :: rest => String.mk ((rest.dropWhile (fun c => c ≠ '\x7d')).drop 1)
  | _ => name

/-- The names of the global maps that `get_globals` accepts through its
`map_name` argument (resolved by `getattr(self, map_name)` in the code). -/
inductive MapName where
  | types
  | attributes
  | attribute_groups
  | groups
  | elements
  | base_elements
deriving DecidableEq

/-- The `XsdGlobals` mediator state (schema.py lines 64-99): the two
URI-keyed schema maps, the global declaration maps, `base_elements` and
the namespace-view cache. `builtin_types` stands for
`validator.BUILTIN_TYPES`, the builtin catalog seeded into `types` by
`__init__` and re-seeded by `clear`. Values of the global maps are an
abstract type `V` (the compiled-component classes live outside the
excerpt). -/
structure XsdGlobals (V : Type) where
  builtin_types : AList String V
  namespaces : AList String (List Schema)
  resources : AList String Schema
  types : AList String V
  attributes : AList String V
  attribute_groups : AList String V
  groups : AList String V
  elements : AList String V
  base_elements : AList String V
  view_cache : AList (MapName × String × Bool) (AList String V)
deriving DecidableEq

namespace XsdGlobals

variable {V : Type} [DecidableEq V]

/-- `XsdGlobals.__init__`: empty maps, `types` seeded with the builtin
catalog. -/
def init (builtins : AList String V) : XsdGlobals V :=
  { builtin_types := builtins
    namespaces := []
    resources := []
    types := AList.update ([] : AList String V) builtins
    attributes := []
    attribute_groups := []
    groups := []
    elements := []
    base_elements := []
    view_cache := [] }

/-- `getattr(self, map_name)` for the six map names `get_globals` may
receive. -/
def getMap (r : XsdGlobals V) : MapName → AList String V
  | .types => r.types
  | .attributes => r.attributes
  | .attribute_groups => r.attribute_groups
  | .groups => r.groups
  | .elements => r.elements
  | .base_elements => r.base_elements

/-- The second block of `XsdGlobals.register` (schema.py lines
112-120): record the schema in the by-namespace map unless it is
already present or another schema of the namespace has the same URI. -/
def registerNamespace (r : XsdGlobals V) (s : Schema) : XsdGlobals V :=
  match r.namespaces.find? s.target_namespace with
  | none => { r with namespaces := r.namespaces.insert s.target_namespace [s] }
  | some ns_schemas =>
    if s ∈ ns_schemas then r
    else if ns_schemas.any (fun t => t.uri = s.uri) then r
    else { r with namespaces := r.namespaces.insert s.target_namespace (ns_schemas ++ [s]) }

/-- `XsdGlobals.register` (schema.py lines 102-120): the first block
records the schema in the by-resource map when it has a truthy URI,
returning early — state unchanged — when a different schema is already
registered under that URI; then the by-namespace block runs. -/
def register (r : XsdGlobals V) (s : Schema) : XsdGlobals V :=
  if s.uriTruthy then
    match s.uri with
    | none => r.registerNamespace s
    | some u =>
      match r.resources.find? u with
      | none => XsdGlobals.registerNamespace { r with resources := r.resources.insert u s } s
      | some t => if t ≠ s then r else r.registerNamespace s
  else r.registerNamespace s

/-- The view computed on a cache miss of `get_globals` (schema.py lines
138-147): a dict comprehension over the underlying map keeping the
entries whose key has namespace `namespace`, keys stripped to local
names when `fqn_keys` is false. -/
def computeView (m : AList String V) (namespace_ : String) (fqn_keys : Bool) :
    AList String V :=
  if fqn_keys then
    AList.ofPairs (m.filter (fun kv => namespace_ = get_namespace kv.1))
  else
    AList.ofPairs ((m.filter (fun kv => namespace_ = get_namespace kv.1)).map
      (fun kv => (strip_uri kv.1, kv.2)))

/-- `XsdGlobals.get_globals` (schema.py lines 122-148): return the
cached view for the triple, computing and caching it on a miss. The
returned pair is (view, updated registry). -/
def get_globals (r : XsdGlobals V) (map_name : MapName) (namespace_ : String)
    (fqn_keys : Bool) : AList String V × XsdGlobals V :=
  match r.view_cache.find? (map_name, namespace_, fqn_keys) with
  | some view => (view, r)
  | none =>
    let view := computeView (r.getMap map_name) namespace_ fqn_keys
    (view, { r with view_cache := r.view_cache.insert (map_name, namespace_, fqn_keys) view })

/-- `XsdGlobals.iter_schemas` (schema.py lines 150-154): every schema of
every namespace, in map order. -/
def iter_schemas (r : XsdGlobals V) : List Schema :=
  r.namespaces.flatMap (fun kv => kv.2)

/-- `XsdGlobals.clear` (schema.py lines 156-175). -/
def clear (r : XsdGlobals V) (remove_schemas : Bool) : XsdGlobals V :=
  let r₁ : XsdGlobals V :=
    { r with
      types := []
      attributes := []
      attribute_groups := []
      groups := []
      elements := []
      base_elements := []
      view_cache := [] }
  let r₂ : XsdGlobals V :=
    { r₁ with types := AList.update r₁.types r.builtin_types }
  let r₃ : XsdGlobals V :=
    { r₂ with
      namespaces := r₂.namespaces.map
        (fun kv => (kv.1, kv.2.map (fun s => { s with built := false }))) }
  if remove_schemas then { r₃ with namespaces := [], resources := [] } else r₃

end XsdGlobals

/-- The declaration categories handled by the build pipeline. Simple
types and complex types both live in the same `types` map of the registry; the
category records which `load_* / build_*` pair is being run. -/
inductive Category where
  | simpleTypes
  | attributes
  | attributeGroups
  | complexTypes
  | elements
  | groups
deriving DecidableEq

/-- One statement of `XsdGlobals.build` (schema.py lines 177-209): a
`load_*` call, a `build_*` call (with its `parse_local_groups` flag),
the `base_elements` population, or the final loop marking the schemas
built. -/
inductive BuildStep where
  | load (c : Category)
  | buildPass (c : Category) (parse_local_groups : Bool)
  | updateBaseElements
  | markBuilt
deriving DecidableEq

/-- The externally defined passes `build()` calls: the `load_*` and
`build_*` functions of xsdbase.py (not under src/) and the
`iter_elements` method of compiled model groups (components.py, not
under src/). A load pass takes the map and the registered schemas; a
build pass rewrites the map (the `parse_local_groups` flag selects the
second-phase behavior); `iter_elements` lists the element components of
a group as (name, element) pairs, as consumed by the dict comprehension
on schema.py line 206. -/
structure BuildPasses (V : Type) where
  load_simple_types : AList String V → List Schema → AList String V
  build_simple_types : AList String V → AList String V
  load_attributes : AList String V → List Schema → AList String V
  build_attributes : AList String V → AList String V
  load_attribute_groups : AList String V → List Schema → AList String V
  build_attribute_groups : AList String V → AList String V
  load_complex_types : AList String V → List Schema → AList String V
  build_complex_types : Bool → AList String V → AList String V
  load_elements : AList String V → List Schema → AList String V
  build_elements : Bool → AList String V → AList String V
  load_groups : AList String V → List Schema → AList String V
  build_groups : Bool → AList String V → AList String V
  iter_elements : V → List (String × V)

/-- Build passes that leave every map unchanged (the behavior of the
xsdbase passes over a registry with no loadable declarations). -/
def BuildPasses.trivial (V : Type) : BuildPasses V :=
  { load_simple_types := fun m _ => m
    build_simple_types := fun m => m
    load_attributes := fun m _ => m
    build_attributes := fun m => m
    load_attribute_groups := fun m _ => m
    build_attribute_groups := fun m => m
    load_complex_types := fun m _ => m
    build_complex_types := fun _ m => m
    load_elements := fun m _ => m
    build_elements := fun _ m => m
    load_groups := fun m _ => m
    build_groups := fun _ m => m
    iter_elements := fun _ => [] }

namespace XsdGlobals

variable {V : Type} [DecidableEq V]

/-- The effect of one statement of `build()` on the registry state. -/
def runStep (p : BuildPasses V) (r : XsdGlobals V) : BuildStep → XsdGlobals V
  | .load .simpleTypes => { r with types := p.load_simple_types r.types r.iter_schemas }
  | .buildPass .simpleTypes _ => { r with types := p.build_simple_types r.types }
  | .load .attributes => { r with attributes := p.load_attributes r.attributes r.iter_schemas }
  | .buildPass .attributes _ => { r with attributes := p.build_attributes r.attributes }
  | .load .attributeGroups =>
    { r with attribute_groups := p.load_attribute_groups r.attribute_groups r.iter_schemas }
  | .buildPass .attributeGroups _ =>
    { r with attribute_groups := p.build_attribute_groups r.attribute_groups }
  | .load .complexTypes => { r with types := p.load_complex_types r.types r.iter_schemas }
  | .buildPass .complexTypes flag => { r with types := p.build_complex_types flag r.types }
  | .load .elements => { r with elements := p.load_elements r.elements r.iter_schemas }
  | .buildPass .elements flag => { r with elements := p.build_elements flag r.elements }
  | .load .groups => { r with groups := p.load_groups r.groups r.iter_schemas }
  | .buildPass .groups flag => { r with groups := p.build_groups flag r.groups }
  | .updateBaseElements =>
    let be := r.base_elements.update r.elements
    let be := r.groups.foldl
      (fun acc kv => acc.update (AList.ofPairs (p.iter_elements kv.2))) be
    { r with base_elements := be }
  | .markBuilt =>
    let ns := r.namespaces.map (fun kv => (kv.1, kv.2.map (fun s => { s with built := true })))
    { r with namespaces := ns }

/-- The statement sequence of `XsdGlobals.build` (schema.py lines
184-209), in source order. -/
def buildSteps : List BuildStep :=
  [ .load .simpleTypes, .buildPass .simpleTypes false,
    .load .attributes, .buildPass .attributes false,
    .load .attributeGroups, .buildPass .attributeGroups false,
    .load .complexTypes, .buildPass .complexTypes false,
    .load .elements, .buildPass .elements false,
    .load .groups, .buildPass .groups false,
    .buildPass .groups true, .buildPass .complexTypes true, .buildPass .elements true,
    .updateBaseElements, .markBuilt ]

/-- `XsdGlobals.build`: run the statements of `buildSteps` in order. -/
def build (p : BuildPasses V) (r : XsdGlobals V) : XsdGlobals V :=
  buildSteps.foldl (runStep p) r

end XsdGlobals

/-- The build order the claim states: Phase A in the fixed category
order simple-types, attributes, attribute-groups, complex-types,
elements, model-groups with each load pass before the matching build
pass; Phase B re-running the group, complex-type and element builds
with `parse_local_groups` set; then the `base_elements` population and
the marking of every schema as built. Written from the words of the claim,
to be compared with `XsdGlobals.buildSteps`. -/
def claimedBuildOrder : List BuildStep :=
  ([ Category.simpleTypes, Category.attributes, Category.attributeGroups,
     Category.complexTypes, Category.elements, Category.groups ].flatMap
    (fun c => [BuildStep.load c, BuildStep.buildPass c false])) ++
  [ BuildStep.buildPass .groups true, BuildStep.buildPass .complexTypes true,
    BuildStep.buildPass .elements true ] ++
  [ BuildStep.updateBaseElements, BuildStep.markBuilt ]

/-- Outcome of the target-namespace determination in the
`XMLSchemaValidator` constructor: the adopted target namespace, or the
`XMLSchemaParseError` the constructor raises. -/
inductive TnsResult where
  | ok (tns : String)
  | parseError
deriving DecidableEq

/-- The target-namespace determination of `XMLSchemaValidator.__init__`
(schema.py lines 255-264). `declared` is
`root.attrib.get(targetNamespace, empty)` — a schema with no
targetNamespace attribute yields the empty string — and `expected` is
the optional `namespace` argument of the constructor. -/
def determine_target_namespace (declared : String) (expected : Option String) : TnsResult :=
  match expected with
  | none => .ok declared
  | some ns =>
    if declared ≠ ns then
      if !declared.isEmpty then .parseError
      else .ok ns
    else .ok declared

/-- The actions the tail of `XMLSchemaValidator.__init__` performs
(schema.py lines 288-313) after the registry has been obtained:
registration, the include / import / redefine recursions, the optional
meta-schema check, and whether `self.maps.build()` is invoked. -/
structure CtorActions where
  registered : Bool
  ran_includes : Bool
  ran_imports : Bool
  ran_redefines : Bool
  ran_check : Bool
  ran_build : Bool
deriving DecidableEq

/-- Control flow of `XMLSchemaValidator.__init__` (schema.py lines
288-313). `meta_schema_present` is whether `self.META_SCHEMA` is set
(it is `None` while the meta-schema bootstrap of `create_validator`
runs) and `global_maps_passed` is whether the caller supplied a
registry through the `global_maps` argument. -/
def constructor_actions (meta_schema_present global_maps_passed check_schema : Bool) :
    CtorActions :=
  if meta_schema_present then
    { registered := true
      ran_includes := true
      ran_imports := true
      ran_redefines := true
      ran_check := check_schema
      ran_build := !global_maps_passed }
  else
    { registered := true
      ran_includes := true
      ran_imports := false
      ran_redefines := true
      ran_check := false
      ran_build := false }

/-- One item yielded by `iter_decode`: a decoded value or one of the
two error kinds `iter_errors` filters for (schema.py line 445). -/
inductive Chunk (V : Type) where
  | value (v : V)
  | decodeError (reason : String)
  | validationError (reason : String)
deriving DecidableEq

/-- `isinstance(chunk, (XMLSchemaDecodeError, XMLSchemaValidationError))`. -/
def Chunk.isError {V : Type} : Chunk V → Bool
  | .value _ => false
  | .decodeError _ => true
  | .validationError _ => true

/-- `XMLSchemaValidator.iter_errors` (schema.py lines 442-446) at the
level of the chunk stream: keep the chunks that are decode or
validation errors. `chunks` is the sequence the underlying
`iter_decode` call yields. -/
def iter_errors {V : Type} (chunks : List (Chunk V)) : List (Chunk V) :=
  chunks.filter (fun c => c.isError)

/-- `XMLSchemaValidator.validate` (schema.py lines 434-436): raise the
first error `iter_errors` yields, return normally when there is none. -/
def validate {V : Type} (chunks : List (Chunk V)) : Except (Chunk V) Unit :=
  match iter_errors chunks with
  | [] => .ok ()
  | e :: _ => .error e

/-- `XMLSchemaValidator.is_valid` (schema.py lines 438-440):
`next(iter_errors(...), None) is None`. -/
def is_valid {V : Type} (chunks : List (Chunk V)) : Bool :=
  (iter_errors chunks).head?.isNone

/-- An element of the XML instance document, as far as the excerpt
observes it. -/
structure XmlElem where
  tag : String
deriving DecidableEq

/-- A runtime exception escaping the `iter_decode` generator: the
`AttributeError` produced by calling `.iter_decode(...)` on the
non-`XsdElement` result of a failed `find`. -/
inductive RuntimeErr where
  | attributeError
deriving DecidableEq

/-- Observable behavior of one run of the `iter_decode` generator: the
chunks it yields, in order, and the exception (if any) it raises after
the last yield. -/
structure DecodeOutcome (V : Type) where
  yields : List (Chunk V)
  raised : Option RuntimeErr
deriving DecidableEq

/-- A global element declaration as `iter_decode` uses it: its
`iter_decode` method (components.py, not under src/) enters the model
as the `decode` field, giving the chunks it yields for one instance
element. -/
structure XsdElement (V : Type) where
  name : String
  decode : XmlElem → List (Chunk V)

/-- `XMLSchemaValidator.iter_decode` (schema.py lines 448-474).
`find` stands for `self.find` (the XPath engine is outside the
excerpt); it returns the matched global element declaration, or `none`
when the lookup result is not an `XsdElement`. `rel_matches` stands
for `xml_root.findall(rel_path, ...)`, the instance elements matched by
the relative path of the `path` branch. When `find` fails, the code
yields a validation error naming the tag or path and then — having no
`return` — calls `.iter_decode` on the failed lookup result, which
raises an `AttributeError` as soon as the caller advances the
generator (immediately in the tag branch, at the first matched
instance element in the path branch). -/
def iter_decode {V : Type} (find : String → Option (XsdElement V))
    (rel_matches : List XmlElem) (xml_root : XmlElem) (path : Option String) :
    DecodeOutcome V :=
  match path with
  | none =>
    match find xml_root.tag with
    | some xsd_element => { yields := xsd_element.decode xml_root, raised := none }
    | none =>
      { yields := [Chunk.validationError (xml_root.tag ++ " is not a global element of the schema")]
        raised := some .attributeError }
  | some p =>
    match find p with
    | some xsd_element =>
      { yields := rel_matches.flatMap xsd_element.decode, raised := none }
    | none =>
      { yields := [Chunk.validationError ("the path " ++ p ++ " does not match any element of the schema")]
        raised := if rel_matches.isEmpty then none else some .attributeError }

/-- `XMLSchemaValidator.to_dict` (schema.py lines 476-491) at the level
of the chunk stream of its `iter_decode` call: take the first chunk,
raise it when it is an error, return it otherwise; return `None` when
the iteration yields nothing. -/
def to_dict {V : Type} (chunks : List (Chunk V)) : Except (Chunk V) (Option (Chunk V)) :=
  match chunks with
  | [] => .ok none
  | c :: _ => if c.isError then .error c else .ok (some c)

/-- A global element declaration as the `iter` / `iterchildren` methods
observe it. -/
structure ElemDecl where
  name : String
deriving DecidableEq

/-- Whether an element declaration passes the optional QName filter
(`name is None or xsd_element.name == name`). -/
def matchesName (name : Option String) (e : ElemDecl) : Bool :=
  match name with
  | none => true
  | some n => e.name = n

/-- The comparison `key=lambda x: x.name` induces: order element
declarations by their names. -/
def nameLE (a b : ElemDecl) : Prop :=
  a.name ≤ b.name

instance : DecidableRel nameLE := fun a b =>
  inferInstanceAs (Decidable (a.name ≤ b.name))

instance : IsTotal ElemDecl nameLE :=
  ⟨fun a b => le_total a.name b.name⟩

instance : IsTrans ElemDecl nameLE :=
  ⟨fun _ _ _ hab hbc => le_trans hab hbc⟩

/-- `sorted(self.elements.values(), key=lambda x: x.name)`: a stable
sort of the element declarations by name. -/
def sortByName (l : List ElemDecl) : List ElemDecl :=
  l.insertionSort nameLE

/-- `XMLSchemaValidator.iterchildren` (schema.py lines 502-505):
name-sorted global element declarations, filtered by the optional
QName. `elems` is `self.elements.values()` in map order. -/
def schema_iterchildren (elems : List ElemDecl) (name : Option String) : List ElemDecl :=
  (sortByName elems).filter (matchesName name)

/-- `XMLSchemaValidator.iter` (schema.py lines 495-500): each global
element declaration in map order — yielded when it passes the filter —
followed by the declarations of the own `iter(name)` traversal of that
element, which is the `descend` parameter here (`XsdElement.iter`
lives in components.py, outside the excerpt). -/
def schema_iter (elems : List ElemDecl) (name : Option String)
    (descend : ElemDecl → Option String → List ElemDecl) : List ElemDecl :=
  elems.flatMap (fun e => (if matchesName name e then [e] else []) ++ descend e name)

/-!
Theorems settling the claims.
-/

/-- C6: with a supplied expected namespace, a non-empty declared
`targetNamespace` that differs from it makes the constructor raise an
`XMLSchemaParseError`, and a schema that declares no target namespace
adopts the expected namespace (chameleon include) and construction
proceeds. -/
theorem c6_expected_namespace (declared ns : String) :
    (declared.isEmpty = false → declared ≠ ns →
      determine_target_namespace declared (some ns) = .parseError)
    ∧ (declared.isEmpty = true →
      determine_target_namespace declared (some ns) = .ok ns) := by
  constructor
  · intro h hne
    simp [determine_target_namespace, hne, h]
  · intro h
    by_cases hne : declared = ns
    · subst hne
      simp [determine_target_namespace]
    · simp [determine_target_namespace, hne, h]

/-- Witness for C6 at a concrete pair of namespaces: a conflicting
non-empty declaration fails, an absent declaration adopts the expected
namespace. -/
theorem c6_expected_namespace_witness :
    determine_target_namespace "urn:a" (some "urn:b") = .parseError
    ∧ determine_target_namespace "" (some "urn:b") = .ok "urn:b" :=
  ⟨(c6_expected_namespace "urn:a" "urn:b").1 (by decide) (by decide),
   (c6_expected_namespace "" "urn:b").2 (by decide)⟩

/-- C8: `validate` raises exactly the first error `iter_errors` yields
and returns normally when there is none, and `is_valid` is true iff
`iter_errors` yields no error — stated over the chunk stream of the
underlying `iter_decode` call. -/
theorem c8_validate_is_valid {V : Type} (chunks : List (Chunk V)) :
    (is_valid chunks = true ↔ ∀ c ∈ chunks, c.isError = false)
    ∧ (validate chunks = .ok () ↔ iter_errors chunks = [])
    ∧ (∀ e, (iter_errors chunks).head? = some e → validate chunks = .error e) := by
  refine ⟨?_, ?_, ?_⟩
  · rw [is_valid]
    cases h : iter_errors chunks with
    | nil =>
      simp only [List.head?, Option.isNone]
      rw [iter_errors, List.filter_eq_nil_iff] at h
      simp only [true_iff]
      intro c hc
      simpa using h c hc
    | cons e t =>
      simp only [List.head?, Option.isNone]
      constructor
      · intro hfalse
        exact absurd hfalse (by simp)
      · intro hall
        have he : e ∈ iter_errors chunks := by rw [h]; exact List.mem_cons_self e t
        rw [iter_errors, List.mem_filter] at he
        have := hall e he.1
        rw [this] at he
        simp at he
  · rw [validate]
    cases h : iter_errors chunks <;> simp
  · intro e he
    rw [validate]
    cases h : iter_errors chunks with
    | nil => rw [h] at he; simp at he
    | cons e₀ t =>
      rw [h] at he
      simp only [List.head?] at he
      injection he with he
      rw [he]

/-- Witness for C8: with one decode-error chunk in the stream,
`validate` raises exactly that first error. -/
theorem c8_validate_is_valid_witness :
    validate [Chunk.value (0 : Nat), Chunk.decodeError "bad"] =
      .error (Chunk.decodeError "bad") :=
  (c8_validate_is_valid [Chunk.value (0 : Nat), Chunk.decodeError "bad"]).2.2
    (Chunk.decodeError "bad") (by decide)

/-- C10: composed with `iter_decode`, `to_dict` returns `None` when the
iteration yields no chunk at all, raises the first chunk when it is an
error, and returns the first chunk unchanged when it is a decoded
value. -/
theorem c10_to_dict_first_chunk {V : Type} (find : String → Option (XsdElement V))
    (rel_matches : List XmlElem) (xml_root : XmlElem) (path : Option String) :
    ((iter_decode find rel_matches xml_root path).yields = [] →
      to_dict (iter_decode find rel_matches xml_root path).yields = .ok none)
    ∧ (∀ c rest, (iter_decode find rel_matches xml_root path).yields = c :: rest →
        c.isError = true →
        to_dict (iter_decode find rel_matches xml_root path).yields = .error c)
    ∧ (∀ c rest, (iter_decode find rel_matches xml_root path).yields = c :: rest →
        c.isError = false →
        to_dict (iter_decode find rel_matches xml_root path).yields = .ok (some c)) := by
  refine ⟨?_, ?_, ?_⟩
  · intro h
    rw [h, to_dict]
  · intro c rest h hc
    rw [h, to_dict, hc]
    simp
  · intro c rest h hc
    rw [h, to_dict, hc]
    simp

/-- Witness for C10: a path that matches the schema while the instance
document has no matching element yields no chunk, and `to_dict`
returns `None` without raising. -/
theorem c10_to_dict_first_chunk_witness :
    to_dict (iter_decode (V := Nat)
      (fun _ => some { name := "e", decode := fun _ => [Chunk.value 7] })
      [] { tag := "root" } (some "e")).yields = .ok none :=
  (c10_to_dict_first_chunk
      (fun _ => some { name := "e", decode := fun _ => [Chunk.value 7] })
      [] { tag := "root" } (some "e")).1 rfl

/-- C2 (code bug): when the root tag of the document does not resolve to a
global element declaration, `iter_decode` yields the validation error
once and then — the error branch having no `return` — calls
`.iter_decode(...)` on the failed lookup result, so advancing the
iterator past the yielded error raises an `AttributeError` instead of
terminating. Evaluated here at a concrete unknown root tag. -/
theorem c2_unanchored_decode_raises :
    iter_decode (V := Nat) (fun _ => none) [] { tag := "unknown" } none =
      { yields := [Chunk.validationError ("unknown is not a global element of the schema")]
        raised := some .attributeError } := rfl

/-- C7 counterexample: a construction with no registry passed in while
`META_SCHEMA` is unset (exactly the meta-schema bootstrap of
`create_validator`, schema.py line 540) does not invoke
`registry.build()`, although the claim requires every construction
without a passed-in registry to build. -/
theorem c7_counterexample :
    ¬ (constructor_actions false false false).ran_build = true := by
  decide

/-- C7 as amended: `registry.build()` is invoked by the constructor iff
no registry was passed in and the class meta-schema is set; the
constructor always registers the schema; with a passed-in registry it
never builds; with the meta-schema set it recurses into includes,
imports and redefines, and with the meta-schema unset it skips
the recursion into imports and never builds. -/
theorem c7_build_decision (meta_schema_present global_maps_passed check_schema : Bool) :
    ((constructor_actions meta_schema_present global_maps_passed check_schema).ran_build
      = (meta_schema_present && !global_maps_passed))
    ∧ (constructor_actions meta_schema_present global_maps_passed check_schema).registered = true
    ∧ (global_maps_passed = true →
        (constructor_actions meta_schema_present global_maps_passed check_schema).ran_build = false)
    ∧ (meta_schema_present = true →
        (constructor_actions meta_schema_present global_maps_passed check_schema).ran_includes = true
        ∧ (constructor_actions meta_schema_present global_maps_passed check_schema).ran_imports = true
        ∧ (constructor_actions meta_schema_present global_maps_passed check_schema).ran_redefines = true)
    ∧ (meta_schema_present = false →
        (constructor_actions meta_schema_present global_maps_passed check_schema).ran_imports = false
        ∧ (constructor_actions meta_schema_present global_maps_passed check_schema).ran_build = false) := by
  cases meta_schema_present <;> cases global_maps_passed <;> cases check_schema <;> decide

/-- Witness for C7 at a concrete construction: meta-schema set and a
registry passed in — the schema is registered, includes/imports run,
and the registry is left unbuilt. -/
theorem c7_build_decision_witness :
    (constructor_actions true true false).ran_build = false
    ∧ (constructor_actions true true false).ran_imports = true :=
  ⟨(c7_build_decision true true false).2.2.1 rfl,
   ((c7_build_decision true true false).2.2.2.1 rfl).2.1⟩

/-- C9 counterexample: for a schema whose elements map lists the
declarations in the order b, a (their schema order), `iterchildren`
yields a, b — sorted by name, not schema order. -/
theorem c9_counterexample :
    schema_iterchildren [{ name := "b" }, { name := "a" }] none ≠
      [{ name := "b" }, { name := "a" }] := by
  have hba : ¬ nameLE { name := "b" } { name := "a" } := by
    rw [nameLE, String.le_iff_toList_le]
    decide
  simp only [schema_iterchildren, sortByName, List.insertionSort, List.orderedInsert,
    List.filter, matchesName, if_neg hba]
  intro h
  have := List.head_eq_of_cons_eq h
  simp at this

/-- C9 as amended: `iterchildren(name?)` yields the global
element declarations filtered by the optional QName, sorted
lexicographically by element name — a permutation of the filtered
declarations, not their schema order; `iter(name?)` walks the elements
map in its own order and interleaves every declaration (when it passes
the filter) with the own `iter(name)` traversal of that declaration, so
when those traversals are empty it yields exactly the filtered
declarations in map order. -/
theorem c9_iter_order (elems : List ElemDecl) (name : Option String) :
    List.Sorted nameLE (schema_iterchildren elems name)
    ∧ (schema_iterchildren elems name).Perm (elems.filter (matchesName name))
    ∧ (∀ descend : ElemDecl → Option String → List ElemDecl,
        (∀ e n, descend e n = []) →
        schema_iter elems name descend = elems.filter (matchesName name)) := by
  refine ⟨?_, ?_, ?_⟩
  · exact List.Sorted.filter (matchesName name)
      (List.sorted_insertionSort nameLE elems)
  · exact List.Perm.filter (matchesName name) (List.perm_insertionSort nameLE elems)
  · intro descend hdesc
    induction elems with
    | nil => simp [schema_iter]
    | cons e t ih =>
      rw [schema_iter] at ih ⊢
      rw [List.flatMap_cons, ih, hdesc, List.filter_cons]
      by_cases h : matchesName name e
      · simp [h]
      · simp [h]

/-- Witness for C9 at concrete declarations: with no nested traversal,
`iter` yields the two declarations in map order (b before a),
unsorted. -/
theorem c9_iter_order_witness :
    schema_iter [{ name := "b" }, { name := "a" }] none (fun _ _ => []) =
      List.filter (matchesName none) [{ name := "b" }, { name := "a" }] :=
  (c9_iter_order [{ name := "b" }, { name := "a" }] none).2.2
    (fun _ _ => []) (fun _ _ => rfl)

/-- C5: after `clear(remove_schemas)` the types map holds exactly the
builtin types, the other global maps and the view cache are empty,
every registered schema has `built = false`, and the URI maps are
emptied exactly when `remove_schemas` is true (otherwise the resource
map is untouched and the namespace map keeps its schemas with their
`built` flags lowered). -/
theorem c5_clear_resets {V : Type} [DecidableEq V] (r : XsdGlobals V) (remove_schemas : Bool)
    (hb : AList.NodupKeys r.builtin_types) :
    (XsdGlobals.clear r remove_schemas).types = r.builtin_types
    ∧ (XsdGlobals.clear r remove_schemas).attributes = []
    ∧ (XsdGlobals.clear r remove_schemas).attribute_groups = []
    ∧ (XsdGlobals.clear r remove_schemas).groups = []
    ∧ (XsdGlobals.clear r remove_schemas).elements = []
    ∧ (XsdGlobals.clear r remove_schemas).base_elements = []
    ∧ (XsdGlobals.clear r remove_schemas).view_cache = []
    ∧ (∀ s ∈ (XsdGlobals.clear r remove_schemas).iter_schemas, s.built = false)
    ∧ ((XsdGlobals.clear r remove_schemas).resources =
        if remove_schemas then [] else r.resources)
    ∧ ((XsdGlobals.clear r remove_schemas).namespaces =
        if remove_schemas then []
        else r.namespaces.map (fun kv => (kv.1, kv.2.map (fun s => { s with built := false })))) := by
  have htypes : (XsdGlobals.clear r remove_schemas).types = r.builtin_types := by
    have h := AList.ofPairs_eq_self r.builtin_types hb
    cases remove_schemas <;> simpa [XsdGlobals.clear, AList.ofPairs] using h
  have hbuilt : ∀ s ∈ (XsdGlobals.clear r remove_schemas).iter_schemas, s.built = false := by
    intro s hs
    cases remove_schemas with
    | true => simp [XsdGlobals.clear, XsdGlobals.iter_schemas] at hs
    | false =>
      simp only [XsdGlobals.clear, XsdGlobals.iter_schemas, if_neg Bool.false_ne_true,
        List.flatMap_map, List.mem_flatMap, List.mem_map] at hs
      obtain ⟨kv, _, s₀, _, rfl⟩ := hs
      rfl
  refine ⟨htypes, ?_, ?_, ?_, ?_, ?_, ?_, hbuilt, ?_, ?_⟩ <;>
    cases remove_schemas <;> simp [XsdGlobals.clear]

/-- Sample schema used by the witnesses of C5, C4 and C1. -/
def sampleSchema : Schema :=
  { id := 1, uri := some "file:a.xsd", target_namespace := "urn:x", built := true }

/-- Concrete registry with one builtin type and one registered, built
schema. -/
def sampleReg : XsdGlobals Nat :=
  { builtin_types := [("\x7bns\x7dstring", 7)]
    namespaces := [("urn:x", [sampleSchema])]
    resources := [("file:a.xsd", sampleSchema)]
    types := [("\x7bns\x7dstring", 7), ("\x7burn:x\x7dT", 8)]
    attributes := [("\x7burn:x\x7da", 9)]
    attribute_groups := []
    groups := []
    elements := [("\x7burn:x\x7de", 5)]
    base_elements := [("\x7burn:x\x7de", 5)]
    view_cache := [((MapName.types, "urn:x", true), [("\x7burn:x\x7dT", 8)])] }

/-- Witness for C5 at the sample registry: the types map reduces to the
builtin catalog and the registered schema comes out with
`built = false`. -/
theorem c5_clear_resets_witness :
    (XsdGlobals.clear sampleReg false).types = sampleReg.builtin_types
    ∧ ({ sampleSchema with built := false } : Schema).built = false :=
  ⟨(c5_clear_resets sampleReg false (by decide)).1,
   (c5_clear_resets sampleReg false (by decide)).2.2.2.2.2.2.2.1
     { sampleSchema with built := false } (by decide)⟩

/-- The Phase A and Phase B portion of `build` (the first fifteen
statements, before the `base_elements` population and the built-flag
loop). -/
def phaseAB {V : Type} (p : BuildPasses V) (r : XsdGlobals V) : XsdGlobals V :=
  (XsdGlobals.buildSteps.take 15).foldl (XsdGlobals.runStep p) r

theorem build_decompose {V : Type} (p : BuildPasses V) (r : XsdGlobals V) :
    XsdGlobals.build p r =
      XsdGlobals.runStep p
        (XsdGlobals.runStep p (phaseAB p r) .updateBaseElements) .markBuilt := rfl

/-- C3: `build` runs exactly the claimed statement order — Phase A in
the fixed category order with each load pass before its build pass,
Phase B re-running the group, complex-type and element builds with
`parse_local_groups` set, then the `base_elements` population and the
built-flag loop; whatever the externally supplied passes do, the final
`base_elements` map holds every key of the final `elements` map and
every registered schema ends with `built = true`. -/
theorem c3_build_pipeline {V : Type} [DecidableEq V] (p : BuildPasses V) (r : XsdGlobals V) :
    XsdGlobals.buildSteps = claimedBuildOrder
    ∧ (∀ k, ((XsdGlobals.build p r).elements.find? k).isSome →
        ((XsdGlobals.build p r).base_elements.find? k).isSome)
    ∧ (∀ s ∈ (XsdGlobals.build p r).iter_schemas, s.built = true) := by
  refine ⟨by decide, ?_, ?_⟩
  · intro k hk
    rw [build_decompose] at hk ⊢
    rw [XsdGlobals.runStep] at hk ⊢
    rw [XsdGlobals.runStep] at hk ⊢
    simp only at hk ⊢
    exact AList.find?_foldl_update_isSome (phaseAB p r).groups _ _ k
      (AList.find?_update_isSome_right (phaseAB p r).base_elements (phaseAB p r).elements k hk)
  · intro s hs
    have hns : (XsdGlobals.build p r).namespaces =
        ((XsdGlobals.runStep p (phaseAB p r) .updateBaseElements).namespaces).map
          (fun kv => (kv.1, kv.2.map (fun s => { s with built := true }))) := rfl
    simp only [XsdGlobals.iter_schemas, hns, List.flatMap_map, List.mem_flatMap,
      List.mem_map] at hs
    obtain ⟨kv, _, s₀, _, rfl⟩ := hs
    rfl

/-- Registry used to witness C3: one global element and one registered,
unbuilt schema. -/
def buildReg : XsdGlobals Nat :=
  { builtin_types := []
    namespaces := [("urn:x", [{ id := 1, uri := none, target_namespace := "urn:x", built := false }])]
    resources := []
    types := []
    attributes := []
    attribute_groups := []
    groups := []
    elements := [("\x7burn:x\x7de", 5)]
    base_elements := []
    view_cache := [] }

/-- Witness for C3 at the sample registry with pass functions that load
nothing: the element key lands in `base_elements` and the registered
schema comes out built. -/
theorem c3_build_pipeline_witness :
    (((XsdGlobals.build (BuildPasses.trivial Nat) buildReg).base_elements.find?
        "\x7burn:x\x7de").isSome : Prop)
    ∧ ({ id := 1, uri := none, target_namespace := "urn:x", built := true } : Schema).built = true :=
  ⟨(c3_build_pipeline (BuildPasses.trivial Nat) buildReg).2.1 "\x7burn:x\x7de" (by decide),
   (c3_build_pipeline (BuildPasses.trivial Nat) buildReg).2.2
     { id := 1, uri := none, target_namespace := "urn:x", built := true } (by decide)⟩

theorem registerNamespace_ns {V : Type} [DecidableEq V] (r : XsdGlobals V) (s : Schema) :
    ∃ ns, r.registerNamespace s = { r with namespaces := ns } := by
  unfold XsdGlobals.registerNamespace
  split
  · exact ⟨_, rfl⟩
  · split
    · exact ⟨r.namespaces, rfl⟩
    · split
      · exact ⟨r.namespaces, rfl⟩
      · exact ⟨_, rfl⟩

theorem registerNamespace_resources {V : Type} [DecidableEq V] (r : XsdGlobals V) (s : Schema) :
    (r.registerNamespace s).resources = r.resources := by
  obtain ⟨ns, h⟩ := registerNamespace_ns r s
  rw [h]

theorem registerNamespace_idem {V : Type} [DecidableEq V] (r : XsdGlobals V) (s : Schema) :
    (r.registerNamespace s).registerNamespace s = r.registerNamespace s := by
  rcases h : r.namespaces.find? s.target_namespace with _ | ss
  · have e₁ : r.registerNamespace s =
        { r with namespaces := r.namespaces.insert s.target_namespace [s] } := by
      unfold XsdGlobals.registerNamespace
      rw [h]
    rw [e₁]
    have h₂ : ({ r with namespaces := r.namespaces.insert s.target_namespace [s] } :
        XsdGlobals V).namespaces.find? s.target_namespace = some [s] :=
      AList.find?_insert_self r.namespaces s.target_namespace [s]
    simp [XsdGlobals.registerNamespace, h₂]
  · by_cases hmem : s ∈ ss
    · have e₁ : r.registerNamespace s = r := by
        simp [XsdGlobals.registerNamespace, h, hmem]
      rw [e₁]
      exact e₁
    · by_cases hany : ss.any (fun t => t.uri = s.uri)
      · have e₁ : r.registerNamespace s = r := by
          simp only [XsdGlobals.registerNamespace, h, if_neg hmem]
          simp [hany]
        rw [e₁]
        exact e₁
      · have e₁ : r.registerNamespace s =
            { r with namespaces := r.namespaces.insert s.target_namespace (ss ++ [s]) } := by
          simp only [XsdGlobals.registerNamespace, h, if_neg hmem]
          simp [hany]
        rw [e₁]
        have h₂ : ({ r with namespaces := r.namespaces.insert s.target_namespace (ss ++ [s]) } :
            XsdGlobals V).namespaces.find? s.target_namespace = some (ss ++ [s]) :=
          AList.find?_insert_self r.namespaces s.target_namespace (ss ++ [s])
        simp [XsdGlobals.registerNamespace, h₂]

/-- C4: registration is idempotent — registering the same schema object
a second time leaves the whole registry state unchanged — and
registering a different schema object whose canonical URI is already
taken leaves the registry unchanged (the already-registered instance
wins) without raising. -/
theorem c4_register_idempotent {V : Type} [DecidableEq V] :
    (∀ (r : XsdGlobals V) (s : Schema),
      XsdGlobals.register (XsdGlobals.register r s) s = XsdGlobals.register r s)
    ∧ (∀ (r : XsdGlobals V) (s₁ t : Schema) (u : String),
        s₁.uri = some u → u.isEmpty = false → r.resources.find? u = some t → t ≠ s₁ →
        XsdGlobals.register r s₁ = r) := by
  constructor
  · intro r s
    rcases hsu : s.uri with _ | u
    · have hft : s.uriTruthy = false := by simp [Schema.uriTruthy, hsu]
      have e : ∀ r' : XsdGlobals V, XsdGlobals.register r' s = r'.registerNamespace s := by
        intro r'
        simp [XsdGlobals.register, hft]
      rw [e, e, registerNamespace_idem]
    · by_cases hue : u.isEmpty
      · have hft : s.uriTruthy = false := by simp [Schema.uriTruthy, hsu, hue]
        have e : ∀ r' : XsdGlobals V, XsdGlobals.register r' s = r'.registerNamespace s := by
          intro r'
          simp [XsdGlobals.register, hft]
        rw [e, e, registerNamespace_idem]
      · have htr : s.uriTruthy = true := by simp [Schema.uriTruthy, hsu, hue]
        have e₂ : ∀ X : XsdGlobals V, X.resources.find? u = some s →
            XsdGlobals.register X s = X.registerNamespace s := by
          intro X hX
          simp [XsdGlobals.register, htr, hsu, hX]
        rcases hf : r.resources.find? u with _ | t
        · have e₁ : XsdGlobals.register r s =
              XsdGlobals.registerNamespace { r with resources := r.resources.insert u s } s := by
            simp [XsdGlobals.register, htr, hsu, hf]
          have hf₂ : (XsdGlobals.register r s).resources.find? u = some s := by
            rw [e₁, registerNamespace_resources]
            exact AList.find?_insert_self r.resources u s
          rw [e₂ (XsdGlobals.register r s) hf₂, e₁, registerNamespace_idem]
        · by_cases hts : t = s
          · have hfs : r.resources.find? u = some s := by rw [← hts]; exact hf
            have e₁ : XsdGlobals.register r s = r.registerNamespace s := e₂ r hfs
            have hf₂ : (XsdGlobals.register r s).resources.find? u = some s := by
              rw [e₁, registerNamespace_resources]
              exact hfs
            rw [e₂ (XsdGlobals.register r s) hf₂, e₁, registerNamespace_idem]
          · have e₁ : XsdGlobals.register r s = r := by
              simp [XsdGlobals.register, htr, hsu, hf, hts]
            rw [e₁]
            exact e₁
  · intro r s₁ t u hu hue hf hne
    have htr : s₁.uriTruthy = true := by simp [Schema.uriTruthy, hu, hue]
    simp [XsdGlobals.register, htr, hu, hf, hne]

/-- Witness for C4: at the sample registry, re-registering the sample
schema is a no-op, and registering a fresh schema object that reuses
the registered canonical URI leaves the registry unchanged. -/
theorem c4_register_idempotent_witness :
    XsdGlobals.register (XsdGlobals.register sampleReg sampleSchema) sampleSchema =
      XsdGlobals.register sampleReg sampleSchema
    ∧ XsdGlobals.register sampleReg
        { id := 2, uri := some "file:a.xsd", target_namespace := "urn:y", built := false } =
      sampleReg :=
  ⟨(c4_register_idempotent (V := Nat)).1 sampleReg sampleSchema,
   (c4_register_idempotent (V := Nat)).2 sampleReg
     { id := 2, uri := some "file:a.xsd", target_namespace := "urn:y", built := false }
     sampleSchema "file:a.xsd" rfl (by decide) (by decide) (by decide)⟩

theorem get_globals_miss {V : Type} [DecidableEq V] (r : XsdGlobals V) (m : MapName)
    (ns : String) (fqn : Bool) (h : r.view_cache.find? (m, ns, fqn) = none) :
    (r.get_globals m ns fqn).1 = XsdGlobals.computeView (r.getMap m) ns fqn := by
  simp only [XsdGlobals.get_globals, h]

theorem register_shape {V : Type} [DecidableEq V] (r : XsdGlobals V) (s : Schema) :
    ∃ ns res, XsdGlobals.register r s = { r with namespaces := ns, resources := res } := by
  unfold XsdGlobals.register
  split
  · split
    · obtain ⟨ns, h⟩ := registerNamespace_ns r s
      exact ⟨ns, r.resources, by rw [h]⟩
    · split
      · obtain ⟨ns, h⟩ := registerNamespace_ns
          { r with resources := r.resources.insert _ s } s
        exact ⟨ns, _, by rw [h]⟩
      · split
        · exact ⟨r.namespaces, r.resources, rfl⟩
        · obtain ⟨ns, h⟩ := registerNamespace_ns r s
          exact ⟨ns, r.resources, by rw [h]⟩
  · obtain ⟨ns, h⟩ := registerNamespace_ns r s
    exact ⟨ns, r.resources, by rw [h]⟩

/-- Registry with a global element not yet mirrored in `base_elements`,
used to exhibit the stale view cache across `build`. -/
def staleReg : XsdGlobals Nat :=
  { builtin_types := []
    namespaces := []
    resources := []
    types := []
    attributes := []
    attribute_groups := []
    groups := []
    elements := [("\x7burn:x\x7de", 0)]
    base_elements := []
    view_cache := [] }

/-- C1 counterexample: request the `base_elements` view of namespace
urn:x (caching the empty projection), then run `build` — whose
finalization copies the element into `base_elements` — and request the
view again: `get_globals` returns the stale cached view, which differs
from a fresh filtering of the underlying map, refuting the claim that
the cached view still agrees with the underlying map after `build`. -/
theorem c1_counterexample :
    ((XsdGlobals.build (BuildPasses.trivial Nat)
        ((staleReg.get_globals .base_elements "urn:x" true).2)).get_globals
        .base_elements "urn:x" true).1
    ≠ XsdGlobals.computeView
        ((XsdGlobals.build (BuildPasses.trivial Nat)
          ((staleReg.get_globals .base_elements "urn:x" true).2)).getMap .base_elements)
        "urn:x" true := by
  decide

/-- C1 as amended: `get_globals` returns, for each triple, the
filtering of the underlying map computed when that triple was first
requested. On a cache miss the returned view is the fresh filtering;
`register` leaves the six global maps and the view cache untouched, so
views stay coherent across it; `clear` empties the cache, so every
view requested after `clear` is freshly computed; and with `fqn_keys`
true the fresh view holds exactly the entries of the underlying map
whose key namespace is the requested one. `build`, however, mutates
the maps without invalidating the cache, so a view cached before
`build` can disagree with the underlying map afterwards (see the
counterexample). -/
theorem c1_view_cache {V : Type} [DecidableEq V] :
    (∀ (r : XsdGlobals V) (m : MapName) (ns : String) (fqn : Bool),
      r.view_cache.find? (m, ns, fqn) = none →
      (r.get_globals m ns fqn).1 = XsdGlobals.computeView (r.getMap m) ns fqn)
    ∧ (∀ (r : XsdGlobals V) (s : Schema) (m : MapName),
        (XsdGlobals.register r s).getMap m = r.getMap m
        ∧ (XsdGlobals.register r s).view_cache = r.view_cache)
    ∧ (∀ (r : XsdGlobals V) (b : Bool), (XsdGlobals.clear r b).view_cache = [])
    ∧ (∀ (r : XsdGlobals V) (b : Bool) (m : MapName) (ns : String) (fqn : Bool),
        ((XsdGlobals.clear r b).get_globals m ns fqn).1 =
          XsdGlobals.computeView ((XsdGlobals.clear r b).getMap m) ns fqn)
    ∧ (∀ (M : AList String V) (ns k : String) (v : V), AList.NodupKeys M →
        ((k, v) ∈ XsdGlobals.computeView M ns true ↔ (k, v) ∈ M ∧ ns = get_namespace k)) := by
  have hclear_cache : ∀ (r : XsdGlobals V) (b : Bool), (XsdGlobals.clear r b).view_cache = [] := by
    intro r b
    cases b <;> simp [XsdGlobals.clear]
  refine ⟨get_globals_miss, ?_, hclear_cache, ?_, ?_⟩
  · intro r s m
    obtain ⟨ns, res, h⟩ := register_shape r s
    rw [h]
    cases m <;> exact ⟨rfl, rfl⟩
  · intro r b m ns fqn
    exact get_globals_miss _ m ns fqn (by rw [hclear_cache r b]; rfl)
  · intro M ns k v hnd
    have hp : XsdGlobals.computeView M ns true =
        M.filter (fun kv => ns = get_namespace kv.1) := by
      simp only [XsdGlobals.computeView, if_pos rfl]
      exact AList.ofPairs_eq_self _
        (AList.NodupKeys.of_filter M (fun kv => ns = get_namespace kv.1) hnd)
    rw [hp, List.mem_filter]
    simp

/-- Witness for the amended statement of C1: at the sample registry the
`elements` view of namespace urn:x is not yet cached, and the first
request returns the fresh filtering. -/
theorem c1_view_cache_witness :
    (sampleReg.get_globals .elements "urn:x" true).1 =
      XsdGlobals.computeView (sampleReg.getMap .elements) "urn:x" true :=
  (c1_view_cache (V := Nat)).1 sampleReg .elements "urn:x" true (by decide)

end XmlSchemaModel
